import Mathlib

/-!
Verification of the space-usage statistics engine of `py-sqlite-analyzer`
(`include/sqlitestats.py`), shallowly embedded in Lean 4.

The embedding follows the source:
* raw `dbstat` page records become the structure `PageRecord`;
* `_count_gaps` becomes `countGaps` (an explicit accumulator loop);
* `_extract_sqlite_stats` becomes `extractStats`; SQL aggregates over an
  empty row set yield `NULL`, modelled by `Option Nat` (`none` = NULL);
* the `space_used` rows become `SpaceUsedRow`, built by `mkRow` exactly as
  `_compute_stats` inserts them;
* `_query_space_used_table` becomes `derivedStats`; the Python arithmetic
  on `None` values raises, modelled by `Except String Bundle`;
* `_percentage` becomes `percentage` over `ℚ` (Python true division is
  modelled by exact rational division);
* `autovacuum_page_count` becomes `autovacuumPageCount`, with the float
  expression `page_size / 5` modelled as the exact rational value;
* `is_without_rowid` becomes `is_without_rowid`; the possibly-unassigned
  local variable `pk_is_table` is threaded as an `Option Nat`, and reading
  it while unassigned is the `UnboundLocalError` outcome.
-/

set_option autoImplicit false

/-- The `pagetype` column of `dbstat`: `internal`, `leaf` or `overflow`. -/
inductive PageType where
  | internal
  | leaf
  | overflow
deriving DecidableEq, Repr

/-- One raw `dbstat` record for a physical page of one object
(`src/include/sqlitestats.py` reads these from `temp.dbstat`). -/
structure PageRecord where
  pageno : Nat
  pagetype : PageType
  ncell : Nat
  payload : Nat
  unused : Nat
  mx_payload : Nat
  pgsize : Nat
  path : List Char
deriving DecidableEq, Repr

/-! ### `_percentage` (lines 481-485) -/

/-- `_percentage(value, total)`: `0` when `total == 0`, else `100 * value / total`.
Python true division is modelled by exact division in `ℚ`. -/
def percentage (value total : ℚ) : ℚ :=
  if total = 0 then 0 else 100 * value / total

/-! ### `_count_gaps` (lines 411-431)

The loop body increments `gap_count` when `previous_page > 0`, the page is a
leaf and its number is not `previous_page + 1`; then it unconditionally sets
`previous_page` to the current page number. -/

/-- The loop of `_count_gaps`, with the `gap_count` and `previous_page`
variables as explicit arguments. -/
def countGapsLoop : Nat → Nat → List PageRecord → Nat
  | gaps, _, [] => gaps
  | gaps, prev, p :: rest =>
      countGapsLoop
        (if 0 < prev ∧ p.pagetype = PageType.leaf ∧ p.pageno ≠ prev + 1
         then gaps + 1 else gaps)
        p.pageno rest

/-- `_count_gaps`: the input list is the object's pages ordered by `pageno`. -/
def countGaps (pages : List PageRecord) : Nat :=
  countGapsLoop 0 0 pages

/-- The gap count as the spec sentence of claim C1 reads: only leaf pages
update the previous-page cursor, so a leaf page is compared against the last
*leaf* page number seen. (This is the claim-side reading, for comparison
with `countGaps`.) -/
def claimGapCount (pages : List PageRecord) : Nat :=
  go 0 0 pages
where
  go : Nat → Nat → List PageRecord → Nat
  | gaps, _, [] => gaps
  | gaps, prev, p :: rest =>
      if p.pagetype = PageType.leaf then
        go (if 0 < prev ∧ p.pageno ≠ prev + 1 then gaps + 1 else gaps)
          p.pageno rest
      else
        go gaps prev rest

/-- Adjacent-pair form of the gap count: a gap for every consecutive pair
`(p, q)` of visited pages (of any type) with `p.pageno > 0`, `q` a leaf and
`q.pageno ≠ p.pageno + 1`. -/
def countGapsPairs (pages : List PageRecord) : Nat :=
  ((pages.zip pages.tail).filter fun pq =>
      decide (0 < pq.1.pageno ∧ pq.2.pagetype = PageType.leaf ∧
        pq.2.pageno ≠ pq.1.pageno + 1)).length

/-! ### `is_without_rowid` (lines 216-230) -/

/-- One row of `PRAGMA index_list`. -/
structure IndexInfo where
  name : String
  origin : String
deriving DecidableEq, Repr

/-- Python `str.upper()` (over the string's character list, so that it
evaluates by kernel reduction). -/
def pyUpper (s : String) : String :=
  { data := s.data.map Char.toUpper }

/-- The `for index in indices` loop of `is_without_rowid`.  The local
variable `pk_is_table` is `none` while unassigned; reading it unassigned is
Python's `UnboundLocalError`.  When an index has origin `"pk"` (upper-cased
to `"PK"`), the code sets `pk_is_table` to the number of `sqlite_master`
rows named after the **table** argument (not the index). -/
def isWithoutRowidLoop (masterCount : String → Nat) (table : String) :
    Option Nat → List IndexInfo → Except String Bool
  | _, [] => Except.ok false
  | pkIsTable, idx :: rest =>
      let pkIsTable :=
        if pyUpper idx.origin = "PK" then some (masterCount table) else pkIsTable
      match pkIsTable with
      | none => Except.error "UnboundLocalError"
      | some v =>
          if v = 0 then Except.ok true
          else isWithoutRowidLoop masterCount table (some v) rest

/-- `is_without_rowid(table)`: `masterCount name` models
`SELECT count(*) FROM sqlite_master WHERE name="..."`. -/
def is_without_rowid (masterCount : String → Nat) (table : String)
    (indices : List IndexInfo) : Except String Bool :=
  isWithoutRowidLoop masterCount table none indices

/-- WITHOUT ROWID detection as the spec states it: some index has origin
"primary key" and that index's **own** name does not appear in the catalog. -/
def spec_is_without_rowid (masterCount : String → Nat)
    (indices : List IndexInfo) : Bool :=
  indices.any fun idx => pyUpper idx.origin == "PK" && masterCount idx.name == 0

/-! ### `autovacuum_page_count` (lines 157-175) -/

/-- `autovacuum_page_count()`: `0` when `PRAGMA auto_vacuum` is `0` or the
page count is `1`; otherwise `ceil((page_count - 1) / (page_size/5 + 1))`,
where `page_size / 5` is Python float division, modelled exactly in `ℚ`. -/
def autovacuumPageCount (autoVacuum pageCount pageSize : Nat) : Int :=
  if autoVacuum = 0 ∨ pageCount = 1 then 0
  else Int.ceil (((pageCount : ℚ) - 1) / ((pageSize : ℚ) / 5 + 1))

/-- Auto-vacuum overhead as the spec sentence of claim C6 reads:
`⌈(page_count - 1) / (⌊page_size / 5⌋ + 1)⌉`. -/
def specAutovacuumPageCount (autoVacuum pageCount pageSize : Nat) : Int :=
  if autoVacuum = 0 ∨ pageCount = 1 then 0
  else Int.ceil (((pageCount : ℚ) - 1) /
    ((Int.floor ((pageSize : ℚ) / 5) : ℚ) + 1))

/-! ## Helper lemmas for the gap count -/

/-- Pulling the accumulator out of `countGapsLoop`. -/
lemma countGapsLoop_acc (l : List PageRecord) :
    ∀ g prev, countGapsLoop g prev l = g + countGapsLoop 0 prev l := by
  induction l with
  | nil => intro g prev; simp [countGapsLoop]
  | cons p rest ih =>
      intro g prev
      simp only [countGapsLoop]
      by_cases hc : 0 < prev ∧ p.pagetype = PageType.leaf ∧ p.pageno ≠ prev + 1
      · rw [if_pos hc, if_pos hc, ih (g + 1), ih (0 + 1)]
        omega
      · rw [if_neg hc, if_neg hc, ih g]

/-- The loop started after a first visited page `p` counts exactly the
adjacent pairs of `p :: rest` that break leaf sequentiality. -/
lemma countGapsLoop_pairs (rest : List PageRecord) :
    ∀ p : PageRecord,
      countGapsLoop 0 p.pageno rest =
        (((p :: rest).zip rest).filter fun pq =>
            decide (0 < pq.1.pageno ∧ pq.2.pagetype = PageType.leaf ∧
              pq.2.pageno ≠ pq.1.pageno + 1)).length := by
  induction rest with
  | nil => intro p; rfl
  | cons q rest' ih =>
      intro p
      simp only [countGapsLoop, List.zip_cons_cons, List.filter_cons]
      rw [countGapsLoop_acc, ih q]
      by_cases hc : 0 < p.pageno ∧ q.pagetype = PageType.leaf ∧
          q.pageno ≠ p.pageno + 1
      · rw [if_pos hc, decide_eq_true hc, if_pos rfl, List.length_cons]
        omega
      · rw [if_neg hc, decide_eq_false hc]
        simp

/-- C1 (amended): `_count_gaps` counts exactly the adjacent pairs `(p, q)` of
the visited sequence — pages of every type included — where `p.pageno > 0`,
`q` is a leaf page and `q.pageno ≠ p.pageno + 1`.  Every visited page, leaf
or not, becomes the previous-page cursor for the next comparison. -/
theorem countGaps_eq_adjacent_leaf_breaks (pages : List PageRecord) :
    countGaps pages = countGapsPairs pages := by
  cases pages with
  | nil => rfl
  | cons p rest =>
      unfold countGaps countGapsPairs countGapsLoop
      have h0 : ¬ (0 < 0 ∧ p.pagetype = PageType.leaf ∧ p.pageno ≠ 0 + 1) := by
        simp
      rw [if_neg h0]
      simpa using countGapsLoop_pairs rest p

/-- A leaf page at 5, an internal page at 6, a leaf page at 7: the code
counts 0 gaps (the internal page updated the cursor to 6, and 7 = 6 + 1),
but the claim's leaf-only cursor compares leaf 7 against leaf 5 and counts
one gap. -/
def c1Pages : List PageRecord :=
  [{ pageno := 5, pagetype := PageType.leaf, ncell := 1, payload := 10,
     unused := 0, mx_payload := 10, pgsize := 512, path := ['/'] },
   { pageno := 6, pagetype := PageType.internal, ncell := 1, payload := 4,
     unused := 0, mx_payload := 4, pgsize := 512, path := ['/'] },
   { pageno := 7, pagetype := PageType.leaf, ncell := 1, payload := 10,
     unused := 0, mx_payload := 10, pgsize := 512, path := ['/'] }]

/-- C1 (counterexample): on `c1Pages` the code returns 0 gaps, while the
claim ("a non-leaf page never updates the previous-page cursor") demands 1. -/
theorem countGaps_cursor_counterexample :
    countGaps c1Pages = 0 ∧ claimGapCount c1Pages = 1 := by
  decide

/-! ## C5: `percentage` guard and range -/

/-- C5: `percentage(x, 0) = 0` for every `x`, and `percentage(x, t)` lies in
`[0, 100]` whenever `0 ≤ x ≤ t`.  Every percentage field the calculator
produces is computed through this function. -/
theorem percentage_guard_and_range :
    (∀ x : ℚ, percentage x 0 = 0) ∧
    ∀ x t : ℚ, 0 ≤ x → x ≤ t → 0 ≤ percentage x t ∧ percentage x t ≤ 100 := by
  constructor
  · intro x; simp [percentage]
  · intro x t hx hxt
    by_cases ht : t = 0
    · subst ht; simp [percentage]
    · have ht' : 0 < t := lt_of_le_of_ne (hx.trans hxt) (Ne.symm ht)
      simp only [percentage, if_neg ht]
      constructor
      · positivity
      · rw [div_le_iff₀ ht']
        nlinarith

/-- Witness for C5 at `x = 1`, `t = 4` (and `x = 5`, `t = 0`). -/
theorem percentage_guard_witness :
    percentage 5 0 = 0 ∧ (0 : ℚ) ≤ 1 ∧ (1 : ℚ) ≤ 4 ∧
      0 ≤ percentage 1 4 ∧ percentage 1 4 ≤ 100 :=
  ⟨percentage_guard_and_range.1 5, by norm_num, by norm_num,
   (percentage_guard_and_range.2 1 4 (by norm_num) (by norm_num)).1,
   (percentage_guard_and_range.2 1 4 (by norm_num) (by norm_num)).2⟩

/-! ## C10: unbound `pk_is_table` -/

/-- C10: when the index list holds a non-primary-key index before any
primary-key one, `is_without_rowid` reads `pk_is_table` before assigning it
and raises `UnboundLocalError`. -/
theorem is_without_rowid_unbound_local :
    is_without_rowid (fun n => if n = "t" then 1 else 0) "t"
      [{ name := "i0", origin := "c" }, { name := "pk0", origin := "pk" }] =
      Except.error "UnboundLocalError" := by
  rfl

/-! ## C4: WITHOUT ROWID detection queries the wrong name -/

/-- C4 (code bug): for a catalogued table `"t"` whose only index is the
primary-key index `"sqlite_autoindex_t_1"` (absent from the catalog — the
canonical WITHOUT ROWID situation), the code returns `false` because its
catalog query uses the **table** name `"t"` (always present, count 1)
instead of the index name; the spec's detection returns `true`. -/
theorem is_without_rowid_wrong_name_bug :
    is_without_rowid (fun n => if n = "t" then 1 else 0) "t"
      [{ name := "sqlite_autoindex_t_1", origin := "pk" }] = Except.ok false ∧
    spec_is_without_rowid (fun n => if n = "t" then 1 else 0)
      [{ name := "sqlite_autoindex_t_1", origin := "pk" }] = true := by
  exact ⟨rfl, rfl⟩

/-! ## C6: auto-vacuum overhead -/

/-- Ceiling of a quotient of naturals, as a natural-number formula. -/
lemma nat_ceil_div (n d : Nat) (hd : 0 < d) :
    Int.ceil ((n : ℚ) / (d : ℚ)) = ((n + d - 1) / d : Nat) := by
  have hz := Nat.div_add_mod (n + d - 1) d
  have hm : (n + d - 1) % d < d := Nat.mod_lt _ hd
  have h1 : d * ((n + d - 1) / d) < n + d := by omega
  have h2 : n ≤ d * ((n + d - 1) / d) := by omega
  have hdq : (0 : ℚ) < (d : ℚ) := by exact_mod_cast hd
  have h1q : (d : ℚ) * (((n + d - 1) / d : Nat) : ℚ) < (n : ℚ) + (d : ℚ) := by
    exact_mod_cast h1
  have h2q : (n : ℚ) ≤ (d : ℚ) * (((n + d - 1) / d : Nat) : ℚ) := by
    exact_mod_cast h2
  rw [Int.ceil_eq_iff]
  constructor
  · rw [lt_div_iff₀ hdq, Int.cast_natCast]
    nlinarith
  · rw [div_le_iff₀ hdq, Int.cast_natCast]
    nlinarith

/-- C6 (amended): the overhead is 0 exactly when auto-vacuum is disabled or
the file has one page; otherwise it is the ceiling of `(page_count - 1)`
divided by `page_size / 5 + 1` with the division by 5 exact — equivalently
the natural number `(5 * (page_count - 1) + page_size + 4) / (page_size + 5)`. -/
theorem autovacuum_characterization (av pc ps : Nat) (h : 1 ≤ pc) :
    autovacuumPageCount av pc ps =
      if av = 0 ∨ pc = 1 then (0 : Int)
      else (((5 * (pc - 1) + ps + 4) / (ps + 5) : Nat) : Int) := by
  unfold autovacuumPageCount
  by_cases hc : av = 0 ∨ pc = 1
  · rw [if_pos hc, if_pos hc]
  · rw [if_neg hc, if_neg hc]
    have hcast : ((pc : ℚ) - 1) = ((pc - 1 : Nat) : ℚ) := by
      rw [Nat.cast_sub h, Nat.cast_one]
    have hq : ((pc : ℚ) - 1) / ((ps : ℚ) / 5 + 1) =
        ((5 * (pc - 1) : Nat) : ℚ) / ((ps + 5 : Nat) : ℚ) := by
      rw [hcast]
      have h5 : ((ps : ℚ) / 5 + 1) = ((ps : ℚ) + 5) / 5 := by ring
      rw [h5, div_div_eq_mul_div]
      push_cast
      ring
    rw [hq, nat_ceil_div _ _ (by omega)]
    congr 1

/-- Witness for C6's amended theorem at auto-vacuum 1, 8202 pages of 4096
bytes. -/
theorem autovacuum_characterization_witness :
    1 ≤ 8202 ∧
      autovacuumPageCount 1 8202 4096 =
        if (1 : Nat) = 0 ∨ (8202 : Nat) = 1 then (0 : Int)
        else (((5 * (8202 - 1) + 4096 + 4) / (4096 + 5) : Nat) : Int) :=
  ⟨by decide, autovacuum_characterization 1 8202 4096 (by decide)⟩

/-- C6 (counterexample): with auto-vacuum on, 8202 pages and page size 4096,
the code yields `ceil(8201 / 820.2) = 10`, while the claim's floored formula
yields `ceil(8201 / 820) = 11`. -/
theorem autovacuum_floor_counterexample :
    autovacuumPageCount 1 8202 4096 = 10 ∧
      specAutovacuumPageCount 1 8202 4096 = 11 := by
  constructor
  · unfold autovacuumPageCount
    norm_num [Int.ceil_eq_iff]
  · unfold specAutovacuumPageCount
    norm_num [Int.ceil_eq_iff, Int.floor_eq_iff]

/-! ## `_extract_sqlite_stats` (lines 446-471)

Each SQL aggregate over the object's `dbstat` records yields NULL when the
object has no records; `Option Nat` models the nullable result (`none` =
NULL).  Every summed per-row expression below is itself non-NULL, so a sum
is `none` exactly when the record list is empty; likewise for `max`. -/

/-- SQL `sum(expr)` over the records: NULL on an empty set. -/
def sqlSumExpr (f : PageRecord → Nat) (L : List PageRecord) : Option Nat :=
  if L.isEmpty then none else some ((L.map f).sum)

/-- SQL `max(expr)` over the records: NULL on an empty set. -/
def sqlMaxExpr (f : PageRecord → Nat) (L : List PageRecord) : Option Nat :=
  if L.isEmpty then none else some ((L.map f).foldr max 0)

/-- The suffix matched by `path LIKE '%+000000'`. -/
def ovflMark : List Char := ['+', '0', '0', '0', '0', '0', '0']

/-- The summand of the `depth` column:
`(length(CASE WHEN path LIKE '%+%' THEN '' ELSE path END) + 3) / 4`
(SQLite integer division). -/
def depthExpr (p : PageRecord) : Nat :=
  ((if '+' ∈ p.path then ([] : List Char) else p.path).length + 3) / 4

/-- The columns selected by `_extract_sqlite_stats` from `temp.dbstat`. -/
structure ExtractedStats where
  nentry : Option Nat
  leaf_entries : Option Nat
  payload : Option Nat
  ovfl_payload : Option Nat
  ovfl_cnt : Option Nat
  mx_payload : Option Nat
  int_pages : Option Nat
  leaf_pages : Option Nat
  ovfl_pages : Option Nat
  int_unused : Option Nat
  leaf_unused : Option Nat
  ovfl_unused : Option Nat
  compressed_size : Option Nat
  depth : Option Nat
deriving DecidableEq, Repr

/-- `_extract_sqlite_stats` for one object, from its `dbstat` records. -/
def extractStats (L : List PageRecord) : ExtractedStats :=
  { nentry := sqlSumExpr (fun p => p.ncell) L,
    leaf_entries :=
      sqlSumExpr (fun p => if p.pagetype = PageType.leaf then p.ncell else 0) L,
    payload := sqlSumExpr (fun p => p.payload) L,
    ovfl_payload :=
      sqlSumExpr (fun p => if p.pagetype = PageType.overflow then p.payload else 0) L,
    ovfl_cnt :=
      sqlSumExpr (fun p => if ovflMark.isSuffixOf p.path then 1 else 0) L,
    mx_payload := sqlMaxExpr (fun p => p.mx_payload) L,
    int_pages :=
      sqlSumExpr (fun p => if p.pagetype = PageType.internal then 1 else 0) L,
    leaf_pages :=
      sqlSumExpr (fun p => if p.pagetype = PageType.leaf then 1 else 0) L,
    ovfl_pages :=
      sqlSumExpr (fun p => if p.pagetype = PageType.overflow then 1 else 0) L,
    int_unused :=
      sqlSumExpr (fun p => if p.pagetype = PageType.internal then p.unused else 0) L,
    leaf_unused :=
      sqlSumExpr (fun p => if p.pagetype = PageType.leaf then p.unused else 0) L,
    ovfl_unused :=
      sqlSumExpr (fun p => if p.pagetype = PageType.overflow then p.unused else 0) L,
    compressed_size := sqlSumExpr (fun p => p.pgsize) L,
    depth := sqlMaxExpr depthExpr L }

/-! ## The `space_used` table (lines 376-406, 518-540) -/

/-- One row of `space_used`, as inserted by `_compute_stats`.  The columns
coming from SQL aggregates are nullable; `gap_cnt` comes from the Python
`_count_gaps` and is always present. -/
structure SpaceUsedRow where
  name : String
  tblname : String
  is_index : Bool
  is_without_rowid : Bool
  nentry : Option Nat
  leaf_entries : Option Nat
  depth : Option Nat
  payload : Option Nat
  ovfl_payload : Option Nat
  ovfl_cnt : Option Nat
  mx_payload : Option Nat
  int_pages : Option Nat
  leaf_pages : Option Nat
  ovfl_pages : Option Nat
  int_unused : Option Nat
  leaf_unused : Option Nat
  ovfl_unused : Option Nat
  gap_cnt : Nat
  compressed_size : Option Nat
deriving DecidableEq, Repr

/-- The row `_compute_stats` inserts for one object: the extracted SQL
aggregates plus the Python-computed gap count and WITHOUT ROWID flag. -/
def mkRow (name tblname : String) (is_index is_without_rowid : Bool)
    (L : List PageRecord) : SpaceUsedRow :=
  let st := extractStats L
  { name := name, tblname := tblname,
    is_index := is_index, is_without_rowid := is_without_rowid,
    nentry := st.nentry, leaf_entries := st.leaf_entries, depth := st.depth,
    payload := st.payload, ovfl_payload := st.ovfl_payload,
    ovfl_cnt := st.ovfl_cnt, mx_payload := st.mx_payload,
    int_pages := st.int_pages, leaf_pages := st.leaf_pages,
    ovfl_pages := st.ovfl_pages, int_unused := st.int_unused,
    leaf_unused := st.leaf_unused, ovfl_unused := st.ovfl_unused,
    gap_cnt := countGaps L, compressed_size := st.compressed_size }

/-! ## `_query_space_used_table` (lines 246-342) -/

/-- The per-row value of
`CASE WHEN (is_without_rowid OR is_index) THEN nentry ELSE leaf_entries END`. -/
def caseEntry (r : SpaceUsedRow) : Option Nat :=
  if r.is_without_rowid || r.is_index then r.nentry else r.leaf_entries

/-- SQL `sum` over a nullable column: NULLs are skipped; the result is NULL
exactly when no non-NULL input exists. -/
def sqlSumOpt (l : List (Option Nat)) : Option Nat :=
  if (l.filterMap id).isEmpty then none else some (l.filterMap id).sum

/-- SQL `max` over a nullable column: NULLs are skipped; NULL when no
non-NULL input exists. -/
def sqlMaxOpt (l : List (Option Nat)) : Option Nat :=
  if (l.filterMap id).isEmpty then none else some ((l.filterMap id).foldr max 0)

/-- The derived-statistics bundle: the dictionary `_query_space_used_table`
returns.  Raw sums the Python code does arithmetic on are `Nat`;
`ovfl_payload`, `mx_payload` and `depth` are only copied, never operated
on, and stay nullable; ratio fields are exact rationals. -/
structure Bundle where
  nentry : Nat
  payload : Nat
  ovfl_cnt : Nat
  leaf_pages : Nat
  int_pages : Nat
  ovfl_pages : Nat
  leaf_unused : Nat
  int_unused : Nat
  ovfl_unused : Nat
  gap_cnt : Nat
  compressed_size : Nat
  ovfl_payload : Option Nat
  mx_payload : Option Nat
  depth : Option Nat
  cnt : Nat
  total_pages : Nat
  total_pages_percent : ℚ
  storage : Nat
  is_compressed : Bool
  compressed_overhead : Nat
  payload_percent : ℚ
  total_unused : Nat
  total_metadata : Int
  metadata_percent : ℚ
  average_payload : ℚ
  average_unused : ℚ
  average_metadata : ℚ
  ovfl_percent : ℚ
  fragmentation : ℚ
  int_unused_percent : ℚ
  ovfl_unused_percent : ℚ
  leaf_unused_percent : ℚ
  total_unused_percent : ℚ
deriving DecidableEq, Repr

/-- The calculated values of `_query_space_used_table` (lines 283-340),
given the non-NULL aggregates. -/
def mkBundle (nentry payload ovflc lp ip op lu iu ou gc cs : Nat)
    (ovfl_payload mx_payload depth : Option Nat)
    (cnt pageSize pageCount : Nat) : Bundle :=
  let total_pages := lp + ip + op
  let storage := total_pages * pageSize
  let total_unused := ou + iu + lu
  let total_metadata : Int :=
    (storage : Int) - (payload : Int) - (total_unused : Int)
      + 4 * ((op : Int) - (ovflc : Int))
  { nentry := nentry, payload := payload, ovfl_cnt := ovflc,
    leaf_pages := lp, int_pages := ip, ovfl_pages := op,
    leaf_unused := lu, int_unused := iu, ovfl_unused := ou,
    gap_cnt := gc, compressed_size := cs,
    ovfl_payload := ovfl_payload, mx_payload := mx_payload, depth := depth,
    cnt := cnt,
    total_pages := total_pages,
    total_pages_percent := percentage (total_pages : ℚ) (pageCount : ℚ),
    storage := storage,
    is_compressed := decide (cs < storage),
    compressed_overhead := if cs < storage then 14 else 0,
    payload_percent := percentage (payload : ℚ) (storage : ℚ),
    total_unused := total_unused,
    total_metadata := total_metadata,
    metadata_percent := percentage (total_metadata : ℚ) (storage : ℚ),
    average_payload := if nentry = 0 then 0 else (payload : ℚ) / (nentry : ℚ),
    average_unused := if nentry = 0 then 0 else (total_unused : ℚ) / (nentry : ℚ),
    average_metadata := if nentry = 0 then 0 else (total_metadata : ℚ) / (nentry : ℚ),
    ovfl_percent := percentage (ovflc : ℚ) (nentry : ℚ),
    fragmentation := percentage (gc : ℚ) ((total_pages : ℚ) - 1),
    int_unused_percent := percentage (iu : ℚ) ((ip * pageSize : Nat) : ℚ),
    ovfl_unused_percent := percentage (ou : ℚ) ((op * pageSize : Nat) : ℚ),
    leaf_unused_percent := percentage (lu : ℚ) ((lp * pageSize : Nat) : ℚ),
    total_unused_percent := percentage (total_unused : ℚ) (storage : ℚ) }

/-- `_query_space_used_table` over the rows selected by the caller's WHERE
condition.  When the aggregates the Python code operates on are NULL
(`None`), the arithmetic on line 285 onwards raises a `TypeError`, which
propagates to the caller; that outcome is the `Except.error` branch. -/
def derivedStats (rows : List SpaceUsedRow) (pageSize pageCount : Nat) :
    Except String Bundle :=
  match sqlSumOpt (rows.map caseEntry),
        sqlSumOpt (rows.map (fun r => r.payload)),
        sqlSumOpt (rows.map (fun r => r.ovfl_cnt)),
        sqlSumOpt (rows.map (fun r => r.leaf_pages)),
        sqlSumOpt (rows.map (fun r => r.int_pages)),
        sqlSumOpt (rows.map (fun r => r.ovfl_pages)),
        sqlSumOpt (rows.map (fun r => r.leaf_unused)),
        sqlSumOpt (rows.map (fun r => r.int_unused)),
        sqlSumOpt (rows.map (fun r => r.ovfl_unused)),
        sqlSumOpt (rows.map (fun r => some r.gap_cnt)),
        sqlSumOpt (rows.map (fun r => r.compressed_size)) with
  | some nentry, some payload, some ovflc, some lp, some ip, some op,
    some lu, some iu, some ou, some gc, some cs =>
      Except.ok (mkBundle nentry payload ovflc lp ip op lu iu ou gc cs
        (sqlSumOpt (rows.map (fun r => r.ovfl_payload)))
        (sqlMaxOpt (rows.map (fun r => r.mx_payload)))
        (sqlMaxOpt (rows.map (fun r => r.depth)))
        rows.length pageSize pageCount)
  | _, _, _, _, _, _, _, _, _, _, _ => Except.error "TypeError"

/-- `global_stats(exclude_indices)`: WHERE `NOT is_index` or WHERE `1`. -/
def global_stats (rows : List SpaceUsedRow) (pageSize pageCount : Nat)
    (exclude_indices : Bool) : Except String Bundle :=
  derivedStats
    (if exclude_indices then rows.filter (fun r => !r.is_index) else rows)
    pageSize pageCount

/-- `indices_stats()`: WHERE `is_index`. -/
def indices_stats (rows : List SpaceUsedRow) (pageSize pageCount : Nat) :
    Except String Bundle :=
  derivedStats (rows.filter (fun r => r.is_index)) pageSize pageCount

/-! ## C7: empty objects -/

/-- C7 (counterexample): an object with zero page records yields a row whose
`nentry` is NULL, not zero, and the derived-statistics query over that row
raises `TypeError` (at `s['total_pages'] = s['leaf_pages'] + ...`, line 285)
instead of completing. -/
theorem empty_object_query_counterexample :
    (mkRow "t" "t" false false []).nentry ≠ some 0 ∧
    derivedStats [mkRow "t" "t" false false []] 4096 10 =
      Except.error "TypeError" :=
  ⟨by decide, rfl⟩

/-- C7 (amended): an object with zero page records yields a row whose SQL
aggregates are all NULL (`none`), never all-zero sums, and a derived query
whose selected rows are all such rows — or that matches no rows at all —
propagates a `TypeError` to the caller instead of completing. -/
theorem empty_object_nulls_and_failure (name tbl : String) (ii iwr : Bool)
    (ps pc : Nat) :
    (mkRow name tbl ii iwr []).nentry = none ∧
    (mkRow name tbl ii iwr []).leaf_entries = none ∧
    (mkRow name tbl ii iwr []).payload = none ∧
    (mkRow name tbl ii iwr []).depth = none ∧
    (mkRow name tbl ii iwr []).leaf_pages = none ∧
    (mkRow name tbl ii iwr []).int_pages = none ∧
    (mkRow name tbl ii iwr []).ovfl_pages = none ∧
    derivedStats [] ps pc = Except.error "TypeError" ∧
    derivedStats [mkRow name tbl ii iwr []] ps pc =
      Except.error "TypeError" := by
  refine ⟨rfl, rfl, rfl, rfl, rfl, rfl, rfl, rfl, ?_⟩
  cases ii <;> cases iwr <;> rfl

/-! ## Inversion of `derivedStats` -/

/-- A derived-statistics query succeeds exactly when every aggregate the
Python code operates on is non-NULL, and then the bundle is `mkBundle` of
those values. -/
lemma derivedStats_ok_iff (rows : List SpaceUsedRow) (ps pc : Nat)
    (b : Bundle) :
    derivedStats rows ps pc = Except.ok b ↔
    ∃ n pay oc lp ip op lu iu ou gc cs,
      sqlSumOpt (rows.map caseEntry) = some n ∧
      sqlSumOpt (rows.map (fun r => r.payload)) = some pay ∧
      sqlSumOpt (rows.map (fun r => r.ovfl_cnt)) = some oc ∧
      sqlSumOpt (rows.map (fun r => r.leaf_pages)) = some lp ∧
      sqlSumOpt (rows.map (fun r => r.int_pages)) = some ip ∧
      sqlSumOpt (rows.map (fun r => r.ovfl_pages)) = some op ∧
      sqlSumOpt (rows.map (fun r => r.leaf_unused)) = some lu ∧
      sqlSumOpt (rows.map (fun r => r.int_unused)) = some iu ∧
      sqlSumOpt (rows.map (fun r => r.ovfl_unused)) = some ou ∧
      sqlSumOpt (rows.map (fun r => some r.gap_cnt)) = some gc ∧
      sqlSumOpt (rows.map (fun r => r.compressed_size)) = some cs ∧
      b = mkBundle n pay oc lp ip op lu iu ou gc cs
            (sqlSumOpt (rows.map (fun r => r.ovfl_payload)))
            (sqlMaxOpt (rows.map (fun r => r.mx_payload)))
            (sqlMaxOpt (rows.map (fun r => r.depth)))
            rows.length ps pc := by
  constructor
  · intro h
    unfold derivedStats at h
    split at h
    · next n pay oc lp ip op lu iu ou gc cs
          h1 h2 h3 h4 h5 h6 h7 h8 h9 h10 h11 =>
        exact ⟨n, pay, oc, lp, ip, op, lu, iu, ou, gc, cs,
          h1, h2, h3, h4, h5, h6, h7, h8, h9, h10, h11,
          (Except.ok.inj h).symm⟩
    · exact absurd h (by simp)
  · rintro ⟨n, pay, oc, lp, ip, op, lu, iu, ou, gc, cs,
      h1, h2, h3, h4, h5, h6, h7, h8, h9, h10, h11, hb⟩
    subst hb
    unfold derivedStats
    rw [h1, h2, h3, h4, h5, h6, h7, h8, h9, h10, h11]

/-! ## C8: average guards -/

/-- C8: in every bundle a derived-statistics query returns, the three
averages are exactly 0 when the summed entry count is 0 (no division is
attempted), and otherwise equal the corresponding total divided by the
entry count. -/
theorem averages_guard (rows : List SpaceUsedRow) (ps pc : Nat) (b : Bundle)
    (h : derivedStats rows ps pc = Except.ok b) :
    (b.nentry = 0 →
      b.average_payload = 0 ∧ b.average_unused = 0 ∧ b.average_metadata = 0) ∧
    (b.nentry ≠ 0 →
      b.average_payload = (b.payload : ℚ) / (b.nentry : ℚ) ∧
      b.average_unused = (b.total_unused : ℚ) / (b.nentry : ℚ) ∧
      b.average_metadata = (b.total_metadata : ℚ) / (b.nentry : ℚ)) := by
  rcases (derivedStats_ok_iff rows ps pc b).1 h with
    ⟨n, pay, oc, lp, ip, op, lu, iu, ou, gc, cs,
     _, _, _, _, _, _, _, _, _, _, _, hb⟩
  subst hb
  by_cases hn : n = 0
  · subst hn
    constructor
    · intro _
      refine ⟨?_, ?_, ?_⟩ <;> simp [mkBundle]
    · intro h0
      exact absurd (by simp [mkBundle]) h0
  · constructor
    · intro h0
      have : n = 0 := by simpa [mkBundle] using h0
      exact absurd this hn
    · intro _
      refine ⟨?_, ?_, ?_⟩ <;> simp [mkBundle, hn]

/-- A concrete leaf page used by the witnesses. -/
def samplePage : PageRecord :=
  { pageno := 2, pagetype := PageType.leaf, ncell := 2, payload := 100,
    unused := 5, mx_payload := 60, pgsize := 4096, path := ['/'] }

/-- The `space_used` row of a one-page table named `t`. -/
def sampleRow : SpaceUsedRow := mkRow "t" "t" false false [samplePage]

/-- The bundle `derivedStats` computes for `[sampleRow]` with page size 4096
and 10 file pages. -/
def sampleBundle : Bundle :=
  mkBundle 2 100 0 1 0 0 5 0 0 0 4096 (some 0) (some 60) (some 1) 1 4096 10

/-- Witness for C8 on the one-row store `[sampleRow]`. -/
theorem averages_guard_witness :
    derivedStats [sampleRow] 4096 10 = Except.ok sampleBundle ∧
    sampleBundle.nentry ≠ 0 ∧
    sampleBundle.average_payload =
      (sampleBundle.payload : ℚ) / (sampleBundle.nentry : ℚ) :=
  ⟨rfl, by decide,
   ((averages_guard [sampleRow] 4096 10 sampleBundle rfl).2 (by decide)).1⟩

/-! ## C2: entry-count selection -/

/-- Summing `if P p then f p else 0` equals summing `f` over the filtered
list (the SQL idiom `sum((cond) * expr)`). -/
lemma sum_if_eq_sum_filter (f : PageRecord → Nat) (P : PageRecord → Prop)
    [DecidablePred P] (L : List PageRecord) :
    (L.map fun p => if P p then f p else 0).sum =
      ((L.filter fun p => decide (P p)).map f).sum := by
  induction L with
  | nil => rfl
  | cons a as ih =>
      by_cases ha : P a
      · simp [List.filter_cons, ha, ih]
      · simp [List.filter_cons, ha, ih]

/-- `sum` of a single non-NULL value. -/
lemma sqlSumOpt_single (x : Nat) : sqlSumOpt [some x] = some x := rfl

/-- C2: the entry count a derived-statistics bundle uses for a single
object is the sum of `ncell` over **all** of its pages when the object is
an index or a WITHOUT ROWID table, and the sum of `ncell` over its leaf
pages only otherwise. -/
theorem entry_count_selection (name tbl : String) (ii iwr : Bool)
    (L : List PageRecord) (h : L ≠ []) (ps pc : Nat) :
    ∃ b, derivedStats [mkRow name tbl ii iwr L] ps pc = Except.ok b ∧
      b.nentry =
        if iwr || ii then (L.map fun p => p.ncell).sum
        else ((L.filter fun p => decide (p.pagetype = PageType.leaf)).map
          fun p => p.ncell).sum := by
  have hne : L.isEmpty = false := by
    cases L with
    | nil => exact absurd rfl h
    | cons a as => rfl
  have hcase : caseEntry (mkRow name tbl ii iwr L) =
      some (if iwr || ii then (L.map fun p => p.ncell).sum
        else (L.map fun p => if p.pagetype = PageType.leaf
          then p.ncell else 0).sum) := by
    cases hb : (iwr || ii) <;>
      simp [caseEntry, mkRow, extractStats, hb, sqlSumExpr, hne]
  refine ⟨mkBundle
      (if iwr || ii then (L.map fun p => p.ncell).sum
       else (L.map fun p => if p.pagetype = PageType.leaf
         then p.ncell else 0).sum)
      ((L.map fun p => p.payload).sum)
      ((L.map fun p => if ovflMark.isSuffixOf p.path then 1 else 0).sum)
      ((L.map fun p => if p.pagetype = PageType.leaf then 1 else 0).sum)
      ((L.map fun p => if p.pagetype = PageType.internal then 1 else 0).sum)
      ((L.map fun p => if p.pagetype = PageType.overflow then 1 else 0).sum)
      ((L.map fun p => if p.pagetype = PageType.leaf then p.unused else 0).sum)
      ((L.map fun p => if p.pagetype = PageType.internal
        then p.unused else 0).sum)
      ((L.map fun p => if p.pagetype = PageType.overflow
        then p.unused else 0).sum)
      (countGaps L)
      ((L.map fun p => p.pgsize).sum)
      (sqlSumOpt ([mkRow name tbl ii iwr L].map fun r => r.ovfl_payload))
      (sqlMaxOpt ([mkRow name tbl ii iwr L].map fun r => r.mx_payload))
      (sqlMaxOpt ([mkRow name tbl ii iwr L].map fun r => r.depth))
      1 ps pc, ?_, ?_⟩
  · refine (derivedStats_ok_iff _ _ _ _).2
      ⟨_, _, _, _, _, _, _, _, _, _, _,
       ?_, ?_, ?_, ?_, ?_, ?_, ?_, ?_, ?_, ?_, ?_, rfl⟩
    · rw [List.map_cons, List.map_nil, hcase, sqlSumOpt_single]
    · simp [mkRow, extractStats, sqlSumExpr, hne, sqlSumOpt_single]
    · simp [mkRow, extractStats, sqlSumExpr, hne, sqlSumOpt_single]
    · simp [mkRow, extractStats, sqlSumExpr, hne, sqlSumOpt_single]
    · simp [mkRow, extractStats, sqlSumExpr, hne, sqlSumOpt_single]
    · simp [mkRow, extractStats, sqlSumExpr, hne, sqlSumOpt_single]
    · simp [mkRow, extractStats, sqlSumExpr, hne, sqlSumOpt_single]
    · simp [mkRow, extractStats, sqlSumExpr, hne, sqlSumOpt_single]
    · simp [mkRow, extractStats, sqlSumExpr, hne, sqlSumOpt_single]
    · simp [mkRow, sqlSumOpt_single]
    · simp [mkRow, extractStats, sqlSumExpr, hne, sqlSumOpt_single]
  · show (if iwr || ii then (L.map fun p => p.ncell).sum
        else (L.map fun p => if p.pagetype = PageType.leaf
          then p.ncell else 0).sum) = _
    rw [sum_if_eq_sum_filter]

/-- Witness for C2 on the one-page rowid table `[samplePage]`
(neither index nor WITHOUT ROWID, so the leaf sum is selected). -/
theorem entry_count_selection_witness :
    ([samplePage] : List PageRecord) ≠ [] ∧
    ∃ b, derivedStats [mkRow "t" "t" false false [samplePage]] 4096 10 =
        Except.ok b ∧
      b.nentry =
        if false || false then ([samplePage].map fun p => p.ncell).sum
        else (([samplePage].filter fun p =>
            decide (p.pagetype = PageType.leaf)).map fun p => p.ncell).sum :=
  ⟨by decide, entry_count_selection "t" "t" false false [samplePage]
    (by decide) 4096 10⟩

/-! ## C9: tables + indices = everything -/

/-- Splitting the non-NULL values of a nullable column along a Boolean
predicate preserves the sum. -/
lemma filterMap_sum_partition (g : SpaceUsedRow → Option Nat)
    (P : SpaceUsedRow → Bool) (rows : List SpaceUsedRow) :
    (((rows.filter P).map g).filterMap id).sum
      + (((rows.filter fun r => !P r).map g).filterMap id).sum
      = ((rows.map g).filterMap id).sum := by
  induction rows with
  | nil => rfl
  | cons r rest ih =>
      cases hp : P r <;> cases hg : g r <;>
        simp [List.filter_cons, hp, hg] at ih ⊢ <;> omega

/-- Splitting the non-NULL values along a Boolean predicate preserves the
total count of non-NULL values. -/
lemma filterMap_length_partition (g : SpaceUsedRow → Option Nat)
    (P : SpaceUsedRow → Bool) (rows : List SpaceUsedRow) :
    (((rows.filter P).map g).filterMap id).length
      + (((rows.filter fun r => !P r).map g).filterMap id).length
      = ((rows.map g).filterMap id).length := by
  induction rows with
  | nil => rfl
  | cons r rest ih =>
      cases hp : P r <;> cases hg : g r <;>
        simp [List.filter_cons, hp, hg] at ih ⊢ <;> omega

/-- If the SQL sum over each half of a Boolean split is non-NULL, the sum
over the whole is their sum. -/
lemma sqlSumOpt_partition (g : SpaceUsedRow → Option Nat)
    (P : SpaceUsedRow → Bool) (rows : List SpaceUsedRow) {a b : Nat}
    (ha : sqlSumOpt ((rows.filter P).map g) = some a)
    (hb : sqlSumOpt ((rows.filter fun r => !P r).map g) = some b) :
    sqlSumOpt (rows.map g) = some (a + b) := by
  unfold sqlSumOpt at ha hb ⊢
  by_cases e1 : ((((rows.filter P).map g).filterMap id)).isEmpty
  · rw [if_pos e1] at ha
    exact absurd ha (by simp)
  · rw [if_neg e1] at ha
    by_cases e2 : ((((rows.filter fun r => !P r).map g).filterMap id)).isEmpty
    · rw [if_pos e2] at hb
      exact absurd hb (by simp)
    · rw [if_neg e2] at hb
      have hlen := filterMap_length_partition g P rows
      have e3 : ¬ ((rows.map g).filterMap id).isEmpty := by
        simp only [List.isEmpty_iff_length_eq_zero] at e1 e2 ⊢
        omega
      rw [if_neg e3]
      have hsum := filterMap_sum_partition g P rows
      rw [← hsum, Option.some.inj ha, Option.some.inj hb]

/-- C9 (amended): whenever the "all tables", "all indices" and "everything"
queries all return bundles (in particular the store must contain at least
one index row, else the "all indices" query raises), the `total_pages` and
summed `payload` of the first two add up to those of the third. -/
theorem tables_plus_indices_totals (rows : List SpaceUsedRow) (ps pc : Nat)
    (bt bi be : Bundle)
    (ht : global_stats rows ps pc true = Except.ok bt)
    (hi : indices_stats rows ps pc = Except.ok bi)
    (he : global_stats rows ps pc false = Except.ok be) :
    bt.total_pages + bi.total_pages = be.total_pages ∧
    bt.payload + bi.payload = be.payload := by
  rw [global_stats, if_pos rfl] at ht
  rw [indices_stats] at hi
  rw [global_stats, if_neg (by simp)] at he
  rcases (derivedStats_ok_iff _ _ _ bt).1 ht with
    ⟨n1, pay1, oc1, lp1, ip1, op1, lu1, iu1, ou1, gc1, cs1,
     _, ht2, _, ht4, ht5, ht6, _, _, _, _, _, hbt⟩
  rcases (derivedStats_ok_iff _ _ _ bi).1 hi with
    ⟨n2, pay2, oc2, lp2, ip2, op2, lu2, iu2, ou2, gc2, cs2,
     _, hi2, _, hi4, hi5, hi6, _, _, _, _, _, hbi⟩
  rcases (derivedStats_ok_iff _ _ _ be).1 he with
    ⟨n3, pay3, oc3, lp3, ip3, op3, lu3, iu3, ou3, gc3, cs3,
     _, he2, _, he4, he5, he6, _, _, _, _, _, hbe⟩
  have elp : lp3 = lp2 + lp1 := by
    have := sqlSumOpt_partition (fun r => r.leaf_pages)
      (fun r => r.is_index) rows hi4 ht4
    rw [he4] at this
    exact Option.some.inj this
  have eip : ip3 = ip2 + ip1 := by
    have := sqlSumOpt_partition (fun r => r.int_pages)
      (fun r => r.is_index) rows hi5 ht5
    rw [he5] at this
    exact Option.some.inj this
  have eop : op3 = op2 + op1 := by
    have := sqlSumOpt_partition (fun r => r.ovfl_pages)
      (fun r => r.is_index) rows hi6 ht6
    rw [he6] at this
    exact Option.some.inj this
  have epay : pay3 = pay2 + pay1 := by
    have := sqlSumOpt_partition (fun r => r.payload)
      (fun r => r.is_index) rows hi2 ht2
    rw [he2] at this
    exact Option.some.inj this
  subst hbt hbi hbe
  constructor
  · show (lp1 + ip1 + op1) + (lp2 + ip2 + op2) = lp3 + ip3 + op3
    omega
  · show pay1 + pay2 = pay3
    omega

/-- A concrete one-page index of table `t`, for the witnesses. -/
def sampleIndexPage : PageRecord :=
  { pageno := 3, pagetype := PageType.leaf, ncell := 4, payload := 50,
    unused := 2, mx_payload := 20, pgsize := 4096, path := ['/'] }

/-- The `space_used` row of the index `i1` on table `t`. -/
def sampleIndexRow : SpaceUsedRow := mkRow "i1" "t" true false [sampleIndexPage]

/-- A store with one table row and one index row. -/
def sampleStore : List SpaceUsedRow := [sampleRow, sampleIndexRow]

/-- The bundle of the "all indices" query on `sampleStore`. -/
def sampleIndexBundle : Bundle :=
  mkBundle 4 50 0 1 0 0 2 0 0 0 4096 (some 0) (some 20) (some 1) 1 4096 10

/-- The bundle of the "everything" query on `sampleStore`. -/
def sampleAllBundle : Bundle :=
  mkBundle 6 150 0 2 0 0 7 0 0 0 8192 (some 0) (some 60) (some 1) 2 4096 10

/-- Witness for C9's amended theorem on `sampleStore`. -/
theorem tables_plus_indices_totals_witness :
    global_stats sampleStore 4096 10 true = Except.ok sampleBundle ∧
    indices_stats sampleStore 4096 10 = Except.ok sampleIndexBundle ∧
    global_stats sampleStore 4096 10 false = Except.ok sampleAllBundle ∧
    sampleBundle.total_pages + sampleIndexBundle.total_pages =
      sampleAllBundle.total_pages ∧
    sampleBundle.payload + sampleIndexBundle.payload =
      sampleAllBundle.payload :=
  ⟨rfl, rfl, rfl,
   (tables_plus_indices_totals sampleStore 4096 10 sampleBundle
     sampleIndexBundle sampleAllBundle rfl rfl rfl).1,
   (tables_plus_indices_totals sampleStore 4096 10 sampleBundle
     sampleIndexBundle sampleAllBundle rfl rfl rfl).2⟩

/-- C9 (counterexample): on a store holding a single table and no index —
a legitimate schema — the "all indices" query does not return a bundle at
all: every aggregate is NULL and the query raises `TypeError` (the source
itself warns `THROW EXCEPTION IF THERE ARE NO INDICES`, line 211), so the
claimed sum over "any schema" fails. -/
theorem indices_stats_throws_counterexample :
    indices_stats [sampleRow] 4096 10 = Except.error "TypeError" ∧
    global_stats [sampleRow] 4096 10 false = Except.ok sampleBundle :=
  ⟨rfl, rfl⟩

/-! ## C3: `max_depth` from structural paths -/

/-- Claim-side test that a path ends in an overflow marker: the 7-character
suffix `+NNNNNN` opens with `'+'`. -/
def endsInOvflMarker (p : List Char) : Bool :=
  decide (7 ≤ p.length) && ((p.drop (p.length - 7)).head? == some '+')

/-- Well-formed `dbstat` structural paths: a btree page's path is `/` (the
root) possibly followed by 4-character segments (so its length is `1 mod 4`
and holds no `'+'`); an overflow page's path appends a 7-character marker
`'+'` plus a 6-character counter to its owner's cell position. -/
def WFPath (p : List Char) : Prop :=
  ('+' ∉ p ∧ p.length % 4 = 1) ∨
  (∃ a b, p = a ++ '+' :: b ∧ b.length = 6 ∧ '+' ∉ b)

/-- The claim's depth: the maximum of `⌈(path_length + 3) / 4⌉` — written
`(path_length + 6) / 4` in natural division — over the records whose path
does not end in an overflow marker. -/
def claimDepth (L : List PageRecord) : Nat :=
  ((L.filter fun p => !endsInOvflMarker p.path).map
    fun p => (p.path.length + 6) / 4).foldr max 0

/-- A path of the overflow shape ends in an overflow marker. -/
lemma wf_marker_true {p : List Char} (a b : List Char)
    (hp : p = a ++ '+' :: b) (hb6 : b.length = 6) :
    endsInOvflMarker p = true := by
  subst hp
  have hlen : (a ++ '+' :: b).length = a.length + 7 := by
    simp [List.length_append, hb6]
  unfold endsInOvflMarker
  rw [hlen]
  have harith : a.length + 7 - 7 = a.length := by omega
  rw [harith, List.drop_left a ('+' :: b)]
  simp

/-- A path without `'+'` does not end in an overflow marker. -/
lemma no_plus_marker_false {p : List Char} (hnp : '+' ∉ p) :
    endsInOvflMarker p = false := by
  unfold endsInOvflMarker
  cases hh : (p.drop (p.length - 7)).head? with
  | none => simp [hh]
  | some c =>
      have hcmem : c ∈ p := by
        have h1 : c ∈ p.drop (p.length - 7) := by
          cases hd : p.drop (p.length - 7) with
          | nil => rw [hd] at hh; cases hh
          | cons x xs =>
              rw [hd] at hh
              have hx : x = c := by
                rw [List.head?_cons] at hh
                exact Option.some.inj hh
              rw [← hx]
              exact List.mem_cons_self _ _
        exact List.drop_subset _ _ h1
      have hne : c ≠ '+' := fun he => hnp (he ▸ hcmem)
      simp [hh, hne]

/-- On well-formed paths, the SQL depth maximum coincides with the claim's
maximum over non-overflow records. -/
lemma depth_fold_eq (L : List PageRecord)
    (hwf : ∀ p ∈ L, WFPath p.path) :
    (L.map depthExpr).foldr max 0 =
      ((L.filter fun p => !endsInOvflMarker p.path).map
        fun p => (p.path.length + 6) / 4).foldr max 0 := by
  induction L with
  | nil => rfl
  | cons p rest ih =>
      have hrest := fun q hq => hwf q (List.mem_cons_of_mem _ hq)
      rcases hwf p (List.mem_cons_self _ _) with ⟨hnp, hmod⟩ |
        ⟨a, b, hp, h6, hnb⟩
      · have hm : endsInOvflMarker p.path = false := no_plus_marker_false hnp
        simp only [List.map_cons, List.foldr_cons, List.filter_cons, hm,
          Bool.not_false, if_pos rfl]
        rw [ih hrest]
        congr 1
        unfold depthExpr
        rw [if_neg hnp]
        show (p.path.length + 3) / 4 = (p.path.length + 6) / 4
        omega
      · have hplus : '+' ∈ p.path := by
          rw [hp]
          exact List.mem_append_right _ (List.mem_cons_self _ _)
        have hm : endsInOvflMarker p.path = true := wf_marker_true a b hp h6
        simp only [List.map_cons, List.foldr_cons, List.filter_cons, hm,
          Bool.not_true]
        rw [if_neg (by simp), ih hrest]
        have hd : depthExpr p = 0 := by
          unfold depthExpr
          rw [if_pos hplus]
          rfl
        rw [hd]
        exact Nat.zero_max _

/-- C3: for an object with at least one page and well-formed `dbstat`
paths, the extracted `depth` is the maximum, over exactly the records whose
path does not end in an overflow marker, of `⌈(path_length + 3) / 4⌉`.
(Overflow records contribute `(0 + 3) / 4 = 0` to the SQL maximum, which
never exceeds a btree page's value, and on segment-shaped paths of length
`1 mod 4` the truncating `(len + 3) / 4` equals the ceiling.) -/
theorem max_depth_from_paths (L : List PageRecord) (h : L ≠ [])
    (hwf : ∀ p ∈ L, WFPath p.path) :
    (extractStats L).depth = some (claimDepth L) := by
  have hne : L.isEmpty = false := by
    cases L with
    | nil => exact absurd rfl h
    | cons a as => rfl
  show sqlMaxExpr depthExpr L = some (claimDepth L)
  unfold sqlMaxExpr claimDepth
  rw [hne]
  simp only [Bool.false_eq_true, if_false]
  exact congrArg some (depth_fold_eq L hwf)

/-- A concrete overflow page hanging off `samplePage`, for the C3 witness. -/
def sampleOvflPage : PageRecord :=
  { pageno := 4, pagetype := PageType.overflow, ncell := 0, payload := 30,
    unused := 0, mx_payload := 0, pgsize := 4096,
    path := ['/', '+', '0', '0', '0', '0', '0', '0'] }

/-- Witness for C3 on a root leaf page plus one overflow page. -/
theorem max_depth_from_paths_witness :
    ([samplePage, sampleOvflPage] : List PageRecord) ≠ [] ∧
    (extractStats [samplePage, sampleOvflPage]).depth =
      some (claimDepth [samplePage, sampleOvflPage]) :=
  ⟨by decide,
   max_depth_from_paths [samplePage, sampleOvflPage] (by decide)
     (by
       intro p hp
       rcases List.mem_cons.1 hp with hp1 | hp2
       · subst hp1
         exact Or.inl ⟨by decide, by decide⟩
       · rcases List.mem_cons.1 hp2 with hp3 | hp4
         · subst hp3
           exact Or.inr ⟨['/'], ['0', '0', '0', '0', '0', '0'],
             rfl, rfl, by decide⟩
         · cases hp4)⟩
